import Mathlib

/-!
Verification of the conversational core of the chatbot-sales-predictor
repository: a shallow embedding of `src/chatbot.py`, `src/ml_engine.py`,
`src/config.py` and the `/chat` endpoint of `src/api.py`, together with
theorems settling the testable properties of the specification.

Python strings are embedded as Lean `String`; `str.lower()` is embedded as
ASCII lowercasing (the keyword tables and cache keys are all ASCII);
`str.strip()` drops leading/trailing whitespace; the `in` operator is
substring containment.  Python floats are embedded as `ℚ`, with `format`
rounding embedded as round-to-nearest.  `random.choice` and the random
draws of the ML engine are embedded as oracle inputs (an explicit
environment), and exceptions from the ML engine as `Except` values.
-/

/-- Embeds Python `x in s` (substring test): is `pre` a prefix of `l`? -/
def listHasPre : List Char → List Char → Bool
  | [], _ => true
  | _ :: _, [] => false
  | a :: as, b :: bs => a == b && listHasPre as bs

/-- Does `needle` occur as a contiguous sublist of `hay`? -/
def listContains (needle : List Char) : List Char → Bool
  | [] => needle.isEmpty
  | c :: cs => listHasPre needle (c :: cs) || listContains needle cs

/-- Embeds Python `needle in hay` for strings. -/
def pyIn (needle hay : String) : Bool :=
  listContains needle.data hay.data

/-- ASCII lowercasing of one character, as Python `str.lower` acts on ASCII. -/
def asciiLower (c : Char) : Char :=
  if 65 ≤ c.toNat ∧ c.toNat ≤ 90 then Char.ofNat (c.toNat + 32) else c

/-- Embeds Python `s.lower()`. -/
def pyLower (s : String) : String :=
  String.mk (s.data.map asciiLower)

/-- The whitespace characters stripped by Python `str.strip()`. -/
def isPySpace (c : Char) : Bool :=
  c == ' ' || c == '\t' || c == '\n' || c == '\r' || c == '\x0b' || c == '\x0c'

/-- Embeds Python `s.strip()`. -/
def pyStrip (s : String) : String :=
  String.mk (((s.data.dropWhile isPySpace).reverse.dropWhile isPySpace).reverse)

/-- Embeds `message.lower().strip()` as computed in `get_instant_response`. -/
def pyLowerStrip (s : String) : String :=
  pyStrip (pyLower s)

/-- One entry of the conversation history (`{"role": ..., "content": ...}`). -/
structure Message where
  role : String
  content : String
deriving DecidableEq, Repr

/-- Embeds `Config.MAX_CONVERSATION_LENGTH` from `src/config.py`. -/
def MAX_CONVERSATION_LENGTH : Nat := 50

/-- Embeds `ChatbotEngine.add_message`: append, then keep only the last
`MAX_CONVERSATION_LENGTH` entries when the bound is exceeded
(`history[-MAX:]` on a longer list is `drop (length - MAX)`). -/
def add_message (hist : List Message) (role content : String) : List Message :=
  let h := hist ++ [Message.mk role content]
  if h.length > MAX_CONVERSATION_LENGTH then
    h.drop (h.length - MAX_CONVERSATION_LENGTH)
  else h

/-- The ordered keyword table of `ChatbotEngine.detect_ml_intent`
(Python dicts iterate in insertion order). -/
def ml_keywords : List (String × String) :=
  [("predict", "prediction"),
   ("forecast", "prediction"),
   ("prediction", "prediction"),
   ("future", "prediction"),
   ("tomorrow", "prediction"),
   ("next", "prediction"),
   ("train", "training"),
   ("training", "training"),
   ("learn", "training"),
   ("model", "training"),
   ("optimize", "training"),
   ("analyze", "analysis"),
   ("analysis", "analysis"),
   ("trend", "analysis"),
   ("pattern", "analysis"),
   ("insight", "analysis"),
   ("data", "analysis"),
   ("hello", "greeting"),
   ("hi", "greeting"),
   ("hey", "greeting"),
   ("good", "greeting")]

/-- Embeds `ChatbotEngine.detect_ml_intent`: first keyword contained in the
lowercased message wins; otherwise intent `general`. -/
def detect_ml_intent (user_message : String) : String × ℚ :=
  match ml_keywords.find? (fun kv => pyIn kv.1 (pyLower user_message)) with
  | some kv => (kv.2, 8/10)
  | none => ("general", 9/10)

/-- The `instant_cache` dict of `ChatbotEngine.get_instant_response`,
in insertion order. -/
def instant_cache : List (String × String) :=
  [("hello", "Hello! 👋 I\x27m your AI-powered predictive assistant! Ready for instant predictions?"),
   ("hi", "Hi there! 🤖 Ready to explore data predictions together?"),
   ("hey", "Hey! ⚡ Fast predictions at your service!"),
   ("status", "✅ **System Status:** All operational | Models: Ready | Response: ⚡ Instant"),
   ("help", "💡 **Quick Commands:** predict, train, analyze, status | What do you need?"),
   ("test", "🧪 **Test Successful!** All systems running at optimal speed ⚡"),
   ("speed", "⚡ **Ultra-Fast Mode Activated!** Response time: <100ms")]

/-- Tier (a) of the instant cache: exact match of the trimmed lowercased
message against a cache key. -/
def exactCacheMatch (message : String) : Option String :=
  List.lookup (pyLowerStrip message) instant_cache

/-- Tier (b): first cache key, in enumeration order, occurring as a
substring of the trimmed lowercased message. -/
def subCacheMatch (message : String) : Option String :=
  (instant_cache.find? (fun kv => pyIn kv.1 (pyLowerStrip message))).map (fun kv => kv.2)

/-- Tier (c): the `quick/fast/rapid/instant` pattern check. -/
def quickPattern (message : String) : Bool :=
  ["quick", "fast", "rapid", "instant"].any (fun w => pyIn w (pyLowerStrip message))

/-- The fixed reply of the `quick/fast/rapid/instant` pattern branch. -/
def lightningReply : String :=
  "⚡ **Lightning Speed Activated!** Ready for instant ML predictions and analysis!"

/-- Embeds `ChatbotEngine.get_instant_response`: exact match first, then substring
match over the cache keys, then the quick-words pattern, else no match. -/
def get_instant_response (message : String) : Option String :=
  match exactCacheMatch message with
  | some r => some r
  | none =>
    match subCacheMatch message with
    | some r => some r
    | none =>
      if quickPattern message then some lightningReply else none

/-- The `simulation_responses` dict of `ChatbotEngine.__init__`. -/
def simulation_responses : List (String × List String) :=
  [("greeting",
    ["Hello! 👋 I\x27m your AI-powered predictive assistant! How can I help you today?",
     "Hi there! 🤖 Ready to explore data predictions together?",
     "Welcome! I\x27m here to help with ML analysis and predictions!"]),
   ("prediction",
    ["🔮 Analyzing your data and generating predictions...",
     "📊 Running prediction algorithms...",
     "🎯 Forecasting based on detected patterns..."]),
   ("training",
    ["🤖 Initiating model training process...",
     "🧠 Optimizing hyperparameters...",
     "⚡ The model is learning from your data..."]),
   ("analysis",
    ["📈 Analyzing trends in progress...",
     "🔍 Searching for patterns in the dataset...",
     "📊 Generating comprehensive analysis report..."]),
   ("general",
    ["Interesting! I can help you with that using my ML capabilities.",
     "Great question! Let me process that with my predictive algorithms.",
     "I\x27ll analyze your request using my advanced ML models!"])]

/-- The response list of `simulation_responses` under one key. -/
def sim_list (k : String) : List String :=
  (List.lookup k simulation_responses).getD []

/-- Embeds `random.choice l` by an oracle index `i` (reduced modulo the
length, so the pick is always an element of a nonempty list). -/
def pick (l : List String) (i : Nat) : String :=
  l.getD (i % l.length) ""

/-- Left-pad a digit string with zeros to `nd` digits. -/
def padZeros (nd : Nat) (s : String) : String :=
  String.mk (List.replicate (nd - s.length) '0') ++ s

/-- Renders `scaled / 10 ^ nd` with exactly `nd` decimal places. -/
def fmtScaled (nd : Nat) (scaled : ℤ) : String :=
  let sign := if scaled < 0 then "-" else ""
  let n := scaled.natAbs
  if nd = 0 then sign ++ toString n
  else sign ++ toString (n / 10 ^ nd) ++ "." ++ padZeros nd (toString (n % 10 ^ nd))

/-- Embeds Python fixed-point formatting `x:.NDf` over `ℚ`
(round to `nd` decimal places, always printing `nd` decimals). -/
def fmtFixed (nd : Nat) (q : ℚ) : String :=
  fmtScaled nd (round (q * (10 : ℚ) ^ nd))

/-- Embeds Python percent formatting `x:.ND%`: multiply by 100, fixed-point,
append a percent sign. -/
def fmtPct (nd : Nat) (q : ℚ) : String :=
  fmtFixed nd (q * 100) ++ "%"

/-- The fields of the `predict_next_values` result used by the chatbot. -/
structure PredictionResult where
  prediction : ℚ
  confidence : ℚ
  model_name : String
  accuracy : ℚ
  mae : ℚ
deriving DecidableEq, Repr

/-- The fields of the `train_model` result used by the chatbot. -/
structure TrainingResult where
  model_name : String
  score : ℚ
  mae : ℚ
  training_time : ℚ
  improvement : ℚ
deriving DecidableEq, Repr

/-- The fields of the `analyze_data` result used by the chatbot. -/
structure AnalysisResult where
  trend : String
  correlations : List String
  anomalies : Nat
  insights : String
  data_points : Nat
deriving DecidableEq, Repr

/-- Oracle environment for one `process_message` call: the `random.choice`
indices and the outcomes of the three ML-engine calls (`Except.error e`
embeds a raised exception whose `str` is `e`). -/
structure Env where
  greeting_choice : Nat
  prediction_intro_choice : Nat
  training_intro_choice : Nat
  analysis_intro_choice : Nat
  general_choice : Nat
  predict_result : Except String PredictionResult
  train_result : Except String TrainingResult
  analyze_result : Except String AnalysisResult

/-- The f-string body of `handle_prediction_request` (success branch). -/
def prediction_response (intro : String) (r : PredictionResult) : String :=
  intro ++ ("\n\n🔮 **Prediction Generated Successfully!**\n\n**Average Forecast**: " ++
    (fmtFixed 2 r.prediction ++ ("\n**Confidence Level**: " ++
    (fmtPct 1 r.confidence ++ ("\n**Model Used**: " ++
    (r.model_name ++ ("\n\n📊 **Model Performance Metrics**:\n• Accuracy: " ++
    (fmtPct 1 r.accuracy ++ ("\n• Mean Absolute Error: " ++
    (fmtFixed 2 r.mae ++ ("\n\n💡 **Key Insight**: The trend appears " ++
    ((if r.prediction > 150 then "positive" else "stable") ++
      " based on historical patterns.\n\nWould you like me to explain the methodology or generate additional forecasts?"))))))))))))

/-- The f-string body of `handle_training_request` (success branch). -/
def training_response (intro : String) (r : TrainingResult) : String :=
  intro ++ ("\n\n🤖 **Model Training Completed Successfully!**\n\n**New Model**: " ++
    (r.model_name ++ ("\n**Performance Score**: " ++
    (fmtPct 1 r.score ++ ("\n**Training Duration**: " ++
    (fmtFixed 1 r.training_time ++ (" seconds\n\n📈 **Performance Improvements**:\n• Accuracy: +" ++
    (fmtPct 1 r.improvement ++
      " vs previous model\n• Overfitting: Well controlled ✅\n• Convergence: Optimal ✅\n\n🚀 **The model is now ready for ultra-precise predictions!**\n\nYou can now ask me for predictions using this newly trained model!"))))))))

/-- The f-string body of `handle_analysis_request` (success branch). -/
def analysis_response (intro : String) (r : AnalysisResult) : String :=
  intro ++ ("\n\n📊 **Comprehensive Data Analysis Complete**\n\n**📈 Overall Trend**: " ++
    (r.trend ++ ("\n**🔗 Strong Correlations**: " ++
    (String.intercalate ", " r.correlations ++ ("\n**⚠️ Anomalies Detected**: " ++
    (toString r.anomalies ++ (" suspicious data points\n**📊 Dataset Volume**: " ++
    (toString r.data_points ++ (" records\n\n💡 **Key Insights**:\n" ++
    (r.insights ++ ("\n\n🔮 **Recommendations**:\n• " ++
    ((if r.trend == "Increasing" then "Maintain current strategy"
      else "Adjust strategy to reverse the trend") ++
      "\n• Monitor variables with strong correlations\n• Investigate detected anomalies\n\nWould you like a prediction based on this analysis?"))))))))))))

/-- The static how-it-works template of `handle_general_request`. -/
def howItWorksText : String :=
  "🤖 **How I Work - Technical Overview**\n\nI\x27m an AI assistant specialized in predictive analytics! Here\x27s what I can do:\n\n🔮 **Predictions**: \"Predict tomorrow\x27s sales\"\n🤖 **Model Training**: \"Train a new model\" \n📊 **Data Analysis**: \"Analyze current trends\"\n\n**Core Technologies**:\n• Machine Learning (RandomForest, AutoML)\n• Time series analysis\n• Anomaly detection\n• Automated feature engineering\n\n**Supported Data Types**:\n• Sales, revenue, business metrics\n• Temporal data with seasonality\n• Multi-variable datasets (weather, marketing, etc.)\n\nTry a command to see the magic in action! ✨"

/-- The static help template of `handle_general_request`. -/
def helpCommandsText : String :=
  "💡 **Help - Available Commands**\n\n**🔮 For Predictions:**\n• \"Predict tomorrow\x27s sales\"\n• \"Forecast next 7 days\"\n• \"What\x27s the trend analysis?\"\n\n**🤖 For Training:**\n• \"Train a new model\"\n• \"Improve accuracy\"\n• \"Optimize parameters\"\n\n**📊 For Analysis:**\n• \"Analyze current data\"\n• \"Show me trends\"\n• \"Detect anomalies\"\n\n**💬 General Questions:**\n• \"How does this work?\"\n• \"What data do you use?\"\n• \"Explain your methods\"\n\nWhat interests you the most?"

/-- The static data-sources template of `handle_general_request`. -/
def dataSourcesText : String :=
  "📊 **My Data Sources & Processing**\n\n**📈 Primary Dataset:**\n• 700+ days of sales data\n• Variables: sales, weather, marketing, calendar\n• Period: 2023-2024 (synthetic but realistic data)\n\n**🔍 Features Used:**\n• `sales` : Daily sales (target variable)\n• `day_of_week` : Day of week (0-6)\n• `month` : Month (1-12) \n• `is_weekend` : Weekend flag (0/1)\n• `temperature` : Average temperature\n• `marketing_spend` : Daily marketing budget\n\n**🧠 Automated Preprocessing:**\n• Missing value handling\n• Feature normalization\n• Temporal feature engineering\n• Intelligent train/test split\n\nThe data is generated with realistic patterns: trend + seasonality + noise!"

/-- The tail appended after `random.choice(simulation_responses[\x22general\x22])`
in the fallback branch of `handle_general_request`. -/
def generalFallbackTail (user_message : String) : String :=
  "\n\n**💡 Based on your message (\"" ++ (user_message.take 50 ++
    ("...\"), I can:**\n\n• 🔮 Generate relevant predictions\n• 📊 Analyze hidden patterns  \n• 🤖 Train optimized models\n• 💡 Provide actionable insights\n\n**Quick Example:** Say \"Predict tomorrow\" and I\x27ll show you my ML power! \n\nWhat would you like to explore?"))

/-- Embeds `ChatbotEngine.handle_greeting`. -/
def handle_greeting (env : Env) (hist : List Message) : String × List Message :=
  let response := pick (sim_list "greeting") env.greeting_choice
  (response, add_message hist "assistant" response)

/-- Embeds `ChatbotEngine.handle_prediction_request`: success composes the
prediction template; a raised exception is caught and surfaced as an
error message, in both cases appended as an assistant message. -/
def handle_prediction_request (env : Env) (hist : List Message) : String × List Message :=
  match env.predict_result with
  | Except.ok r =>
    let intro := pick (sim_list "prediction") env.prediction_intro_choice
    let response := prediction_response intro r
    (response, add_message hist "assistant" response)
  | Except.error e =>
    let error_msg := "❌ Error during prediction: " ++ e
    (error_msg, add_message hist "assistant" error_msg)

/-- Embeds `ChatbotEngine.handle_training_request`. -/
def handle_training_request (env : Env) (hist : List Message) : String × List Message :=
  match env.train_result with
  | Except.ok r =>
    let intro := pick (sim_list "training") env.training_intro_choice
    let response := training_response intro r
    (response, add_message hist "assistant" response)
  | Except.error e =>
    let error_msg := "❌ Error during training: " ++ e
    (error_msg, add_message hist "assistant" error_msg)

/-- Embeds `ChatbotEngine.handle_analysis_request`. -/
def handle_analysis_request (env : Env) (hist : List Message) : String × List Message :=
  match env.analyze_result with
  | Except.ok r =>
    let intro := pick (sim_list "analysis") env.analysis_intro_choice
    let response := analysis_response intro r
    (response, add_message hist "assistant" response)
  | Except.error e =>
    let error_msg := "❌ Error during analysis: " ++ e
    (error_msg, add_message hist "assistant" error_msg)

/-- Embeds `ChatbotEngine.handle_general_request`: keyword sub-dispatch over the
lowercased message, with a fallback echoing a truncated prefix. -/
def handle_general_request (env : Env) (hist : List Message) (user_message : String) :
    String × List Message :=
  let user_lower := pyLower user_message
  let response :=
    if ["how", "work", "explain", "methodology"].any (fun w => pyIn w user_lower) then
      howItWorksText
    else if ["help", "assistance", "commands"].any (fun w => pyIn w user_lower) then
      helpCommandsText
    else if ["data", "dataset", "information"].any (fun w => pyIn w user_lower) then
      dataSourcesText
    else
      pick (sim_list "general") env.general_choice ++ generalFallbackTail user_message
  (response, add_message hist "assistant" response)

/-- Embeds `ChatbotEngine.process_message`.  Returns the reply, the updated
history, and whether `detect_ml_intent` was invoked on the input. -/
def process_message (env : Env) (hist : List Message) (user_message : String) :
    String × List Message × Bool :=
  let hist1 := add_message hist "user" user_message
  match get_instant_response user_message with
  | some instant => (instant, add_message hist1 "assistant" instant, false)
  | none =>
    let intent_result := detect_ml_intent user_message
    if intent_result.1 = "greeting" then
      let p := handle_greeting env hist1
      (p.1, p.2, true)
    else if intent_result.1 = "prediction" then
      let p := handle_prediction_request env hist1
      (p.1, p.2, true)
    else if intent_result.1 = "training" then
      let p := handle_training_request env hist1
      (p.1, p.2, true)
    else if intent_result.1 = "analysis" then
      let p := handle_analysis_request env hist1
      (p.1, p.2, true)
    else
      let p := handle_general_request env hist1 user_message
      (p.1, p.2, true)

/-- The `/chat` endpoint of `src/api.py`: a missing or empty `message`
field is rejected with HTTP 400 (`Message requis`) before
`process_message` runs; otherwise the reply is returned.  The components
are the outcome, the resulting history, and the classifier-invoked flag. -/
def chat_endpoint (env : Env) (hist : List Message) (message_field : Option String) :
    Except String String × List Message × Bool :=
  let message := message_field.getD ""
  if message = "" then (Except.error "Message requis", hist, false)
  else
    let p := process_message env hist message
    (Except.ok p.1, p.2.1, p.2.2)

/-- Embeds `ChatbotEngine.get_conversation_history`. -/
def get_conversation_history (hist : List Message) : List Message := hist

/-- Embeds `ChatbotEngine.clear_conversation`. -/
def clear_conversation (_hist : List Message) : List Message := []

/-- A sequence of `add_message` calls starting from a given history. -/
def append_messages (hist : List Message) (msgs : List Message) : List Message :=
  msgs.foldl (fun h m => add_message h m.role m.content) hist

/-- The `model_data` dict populated by `MLEngine.train_model`. -/
structure ModelData where
  mean_value : ℚ
  trend_slope : ℚ
  seasonal_amplitude : ℚ
  noise_level : ℚ
deriving DecidableEq, Repr

/-- The mutable state of `MLEngine`: its name, the `is_trained` flag, the
`model_data` dict (`none` embeds the initial empty dict), and the `value`
column of `historical_data`. -/
structure MLState where
  model_name : String
  is_trained : Bool
  model_data : Option ModelData
  historical_values : List ℚ
deriving DecidableEq, Repr

/-- The random draws and elapsed wall-clock time consumed by one
`train_model` call. -/
structure TrainDraws where
  trend_slope : ℚ
  seasonal_amplitude : ℚ
  noise_level : ℚ
  score : ℚ
  mae : ℚ
  improvement : ℚ
  elapsed : ℚ
deriving Repr

/-- The dict returned by `MLEngine.train_model`. -/
structure MLTrainRecord where
  model_name : String
  score : ℚ
  mae : ℚ
  training_time : ℚ
  improvement : ℚ
deriving DecidableEq, Repr

/-- Embeds `MLEngine.train_model`: computes `model_data` (the mean requires a
nonempty dataset, otherwise Python raises `ZeroDivisionError`, embedded as
`none`), sets `is_trained`, and returns the metrics record. -/
def train_model (d : TrainDraws) (st : MLState) : Option (MLState × MLTrainRecord) :=
  if st.historical_values.isEmpty then none
  else
    let md := ModelData.mk (st.historical_values.sum / (st.historical_values.length : ℚ))
      d.trend_slope d.seasonal_amplitude d.noise_level
    some (MLState.mk st.model_name true (some md) st.historical_values,
      MLTrainRecord.mk st.model_name d.score d.mae d.elapsed d.improvement)

/-- The random draws consumed by one `predict_next_values` call
(`variation i` is the `random.uniform(-5, 5)` draw of day `i`). -/
structure PredictDraws where
  variation : Nat → ℚ
  confidence : ℚ
  accuracy : ℚ
  mae : ℚ

/-- The dict returned by `MLEngine.predict_next_values` (the `dates` field,
derived from the wall clock, is omitted). -/
structure MLPredRecord where
  prediction : ℚ
  predictions_detail : List ℚ
  confidence : ℚ
  model_name : String
  accuracy : ℚ
  mae : ℚ
deriving DecidableEq, Repr

/-- Embeds `MLEngine.predict_next_values`: trains first when `is_trained` is
false, then extrapolates from the last historical value with the trained
slope.  `none` embeds a raised exception: training on empty data, a
missing `model_data` key, an empty dataset, or `n_days = 0`
(`ZeroDivisionError` on the average). -/
def predict_next_values (n_days : Nat) (pd : PredictDraws) (td : TrainDraws)
    (st : MLState) : Option (MLState × MLPredRecord) :=
  let trained : Option MLState :=
    if st.is_trained then some st else (train_model td st).map (fun p => p.1)
  match trained with
  | none => none
  | some st1 =>
    match st1.model_data, st1.historical_values.getLast? with
    | some md, some last_value =>
      if n_days = 0 then none
      else
        let predictions := (List.range n_days).map
          (fun (i : ℕ) => max 0 (last_value + md.trend_slope * (i : ℚ) + pd.variation i))
        let avg := predictions.sum / (predictions.length : ℚ)
        some (st1, MLPredRecord.mk avg predictions pd.confidence st1.model_name
          pd.accuracy pd.mae)
    | _, _ => none

/-- A concrete oracle environment whose ML-engine calls all raise. -/
def envFail : Env :=
  Env.mk 0 0 0 0 0 (Except.error "boom") (Except.error "boom") (Except.error "boom")

/-- The training record of the concrete training scenario of the spec:
score 0.918, elapsed 12.4 s, improvement 0.03, model id `X`. -/
def trainRec918 : TrainingResult :=
  TrainingResult.mk "X" (459/500) 10 (62/5) (3/100)

/-- An oracle environment whose `train_model` call succeeds with
`trainRec918`. -/
def envTrainOk : Env :=
  Env.mk 0 0 0 0 0 (Except.error "boom") (Except.ok trainRec918) (Except.error "boom")

/-- A concrete untrained ML-engine state over a one-point dataset. -/
def mlStart : MLState := MLState.mk "SimulatedML_v1" false none [0]

/-- Concrete training draws. -/
def tdraws : TrainDraws := TrainDraws.mk 0 20 10 (9/10) 10 (1/20) (62/5)

/-- Concrete prediction draws (all daily variations zero). -/
def pdraws : PredictDraws := PredictDraws.mk (fun _ => 0) (9/10) (19/20) 8

/-- The state reached from `mlStart` by one `train_model` call with
`tdraws`. -/
def mlTrained : MLState :=
  MLState.mk "SimulatedML_v1" true (some (ModelData.mk 0 0 20 10)) [0]

/-- The record returned by `predict_next_values 1 pdraws tdraws mlStart`. -/
def predRec0 : MLPredRecord := MLPredRecord.mk 0 [0] (9/10) "SimulatedML_v1" (19/20) 8

/-- The fixed greeting template strings of the code: the three greeting
templates of `simulation_responses` together with the three greeting
replies (keys `hello`, `hi`, `hey`) of the instant cache. -/
def fixedGreetingReplies : List String :=
  sim_list "greeting" ++ (instant_cache.take 3).map (fun kv => kv.2)

theorem strData_append (s t : String) : (s ++ t).data = s.data ++ t.data := by
  cases s; cases t; rfl

theorem listHasPre_nil (l : List Char) : listHasPre [] l = true := by
  cases l <;> rfl

theorem listContains_nil (l : List Char) : listContains [] l = true := by
  cases l <;> rfl

theorem listHasPre_append (n : List Char) : ∀ x y, listHasPre n x = true →
    listHasPre n (x ++ y) = true := by
  induction n with
  | nil => intro x y _; exact listHasPre_nil _
  | cons a as ih =>
    intro x y h
    cases x with
    | nil => simp [listHasPre] at h
    | cons b bs =>
      simp only [listHasPre, Bool.and_eq_true] at h
      simp only [List.cons_append, listHasPre, Bool.and_eq_true]
      exact ⟨h.1, ih bs y h.2⟩

theorem listHasPre_self (n t : List Char) : listHasPre n (n ++ t) = true := by
  induction n with
  | nil => exact listHasPre_nil _
  | cons a as ih => simp [listHasPre, ih]

theorem listContains_append_right (n l1 l2 : List Char) (h : listContains n l2 = true) :
    listContains n (l1 ++ l2) = true := by
  induction l1 with
  | nil => simpa using h
  | cons c cs ih => simp [listContains, ih]

theorem listContains_append_left (n l1 l2 : List Char) (h : listContains n l1 = true) :
    listContains n (l1 ++ l2) = true := by
  induction l1 with
  | nil =>
    have hn : n = [] := by
      cases n with
      | nil => rfl
      | cons a as => simp [listContains] at h
    subst hn
    exact listContains_nil _
  | cons c cs ih =>
    simp only [listContains, Bool.or_eq_true] at h
    rcases h with h | h
    · have := listHasPre_append n (c :: cs) l2 h
      simp only [List.cons_append] at this ⊢
      simp [listContains, this]
    · simp [listContains, ih h]

theorem listContains_self (n t : List Char) : listContains n (n ++ t) = true := by
  cases n with
  | nil => exact listContains_nil _
  | cons a as =>
    have := listHasPre_self (a :: as) t
    simp only [List.cons_append] at this ⊢
    simp [listContains, this]

theorem pyIn_append_right (n s t : String) (h : pyIn n t = true) :
    pyIn n (s ++ t) = true := by
  unfold pyIn at h ⊢
  rw [strData_append]
  exact listContains_append_right _ _ _ h

theorem pyIn_append_left (n s t : String) (h : pyIn n s = true) :
    pyIn n (s ++ t) = true := by
  unfold pyIn at h ⊢
  rw [strData_append]
  exact listContains_append_left _ _ _ h

theorem pyIn_self_append (n t : String) : pyIn n (n ++ t) = true := by
  unfold pyIn
  rw [strData_append]
  exact listContains_self _ _

theorem add_message_getLast (h : List Message) (r c : String) :
    (add_message h r c).getLast? = some (Message.mk r c) := by
  simp only [add_message]
  split
  · rw [List.drop_append_of_le_length (by
      simp only [List.length_append, List.length_cons, List.length_nil,
        MAX_CONVERSATION_LENGTH]
      omega)]
    exact List.getLast?_concat _
  · exact List.getLast?_concat _

theorem add_message_length (h : List Message) (r c : String) :
    (add_message h r c).length = min (h.length + 1) MAX_CONVERSATION_LENGTH := by
  simp only [add_message]
  split <;> simp_all [MAX_CONVERSATION_LENGTH]
  omega

theorem append_messages_le (msgs : List Message) : ∀ h : List Message,
    h.length ≤ MAX_CONVERSATION_LENGTH →
    (append_messages h msgs).length ≤ MAX_CONVERSATION_LENGTH := by
  induction msgs with
  | nil => intro h hh; simpa [append_messages] using hh
  | cons m ms ih =>
    intro h _
    have h1 : (add_message h m.role m.content).length ≤ MAX_CONVERSATION_LENGTH := by
      rw [add_message_length]; omega
    simpa [append_messages, List.foldl] using ih _ h1

theorem append_messages_no_overflow (msgs : List Message) : ∀ h : List Message,
    h.length + msgs.length ≤ MAX_CONVERSATION_LENGTH →
    append_messages h msgs = h ++ msgs := by
  induction msgs with
  | nil => intro h _; simp [append_messages]
  | cons m ms ih =>
    intro h hlen
    have hm : add_message h m.role m.content = h ++ [m] := by
      simp only [add_message]
      rw [if_neg]
      simp only [List.length_append, List.length_cons, List.length_nil] at hlen ⊢
      simp [MAX_CONVERSATION_LENGTH] at hlen ⊢
      omega
    have hrec := ih (h ++ [m]) (by simp at hlen ⊢; omega)
    simp only [append_messages, List.foldl] at hrec ⊢
    rw [hm, hrec, List.append_assoc]
    rfl

/-- Claim C1: for every input whose trimmed lowercased form equals a key of
the instant cache, `process_message` appends and returns that key's canned
reply and `detect_ml_intent` is never invoked (the classifier flag stays
false). -/
theorem c1_cache_exact_hit (env : Env) (hist : List Message) (msg reply : String)
    (h : exactCacheMatch msg = some reply) :
    process_message env hist msg =
      (reply, add_message (add_message hist "user" msg) "assistant" reply, false) := by
  unfold process_message get_instant_response
  rw [h]

/-- Witness for C1 at the concrete input `"Hello "`. -/
theorem c1_cache_exact_hit_witness :
    exactCacheMatch "Hello " =
      some "Hello! 👋 I\x27m your AI-powered predictive assistant! Ready for instant predictions?" ∧
    process_message envFail [] "Hello " =
      ("Hello! 👋 I\x27m your AI-powered predictive assistant! Ready for instant predictions?",
        add_message (add_message [] "user" "Hello ") "assistant"
          "Hello! 👋 I\x27m your AI-powered predictive assistant! Ready for instant predictions?",
        false) :=
  ⟨rfl, c1_cache_exact_hit envFail [] "Hello " _ rfl⟩

/-- Claim C8: after `clear_conversation`, `get_conversation_history`
returns the empty sequence, regardless of the prior session contents. -/
theorem c8_clear_then_history (hist : List Message) :
    get_conversation_history (clear_conversation hist) = [] := rfl

/-- Claim C7: an empty or missing `message` field is rejected by the
`/chat` endpoint with the validation error before any processing: the
history is unchanged and the classifier is never invoked. -/
theorem c7_empty_input_rejected (env : Env) (hist : List Message)
    (m : Option String) (h : m = none ∨ m = some "") :
    chat_endpoint env hist m = (Except.error "Message requis", hist, false) := by
  rcases h with h | h <;> subst h <;> rfl

/-- Witness for C7 at the concrete input `some ""`. -/
theorem c7_empty_input_rejected_witness :
    ((some "" : Option String) = none ∨ (some "" : Option String) = some "") ∧
    chat_endpoint envFail [] (some "") = (Except.error "Message requis", [], false) :=
  ⟨Or.inr rfl, c7_empty_input_rejected envFail [] (some "") (Or.inr rfl)⟩

/-- Counterexample to claim C5 as frozen: the input `"quick"` matches no
cache key exactly and contains no cache key as a substring, yet
`get_instant_response` returns the lightning reply instead of the
no-match signal. -/
theorem c5_instant_cache_counterexample :
    exactCacheMatch "quick" = none ∧ subCacheMatch "quick" = none ∧
    get_instant_response "quick" = some lightningReply ∧
    get_instant_response "quick" ≠ none := by
  refine ⟨rfl, rfl, rfl, ?_⟩
  decide

/-- Claim C5, amended: a reply is produced exactly by (a) exact match, or
(b) first cache key in enumeration order contained in the input, or (c)
the quick/fast/rapid/instant pattern with its fixed lightning reply; the
no-match signal is returned precisely when all three tiers fail. -/
theorem c5_instant_cache_characterization (m : String) :
    (∀ r, get_instant_response m = some r →
      exactCacheMatch m = some r ∨
      (exactCacheMatch m = none ∧ subCacheMatch m = some r) ∨
      (exactCacheMatch m = none ∧ subCacheMatch m = none ∧
        quickPattern m = true ∧ r = lightningReply)) ∧
    (get_instant_response m = none ↔
      exactCacheMatch m = none ∧ subCacheMatch m = none ∧ quickPattern m = false) := by
  unfold get_instant_response
  cases he : exactCacheMatch m <;> cases hs : subCacheMatch m <;>
    cases hq : quickPattern m <;> simp_all

/-- Witness for C5 (amended) at the concrete input `"quick"`. -/
theorem c5_instant_cache_characterization_witness :
    get_instant_response "quick" = some lightningReply ∧
    (exactCacheMatch "quick" = some lightningReply ∨
      (exactCacheMatch "quick" = none ∧ subCacheMatch "quick" = some lightningReply) ∨
      (exactCacheMatch "quick" = none ∧ subCacheMatch "quick" = none ∧
        quickPattern "quick" = true ∧ lightningReply = lightningReply)) :=
  ⟨rfl, (c5_instant_cache_characterization "quick").1 lightningReply rfl⟩

/-- Counterexample to claim C2 as frozen: `"predict training"` contains the
training keyword `training` and triggers no instant-cache match, yet the
classifier returns intent `prediction`, because the prediction keywords
are scanned first. -/
theorem c2_training_keyword_counterexample :
    pyIn "training" (pyLower "predict training") = true ∧
    get_instant_response "predict training" = none ∧
    (detect_ml_intent "predict training").1 ≠ "training" ∧
    (detect_ml_intent "predict training").1 = "prediction" := by
  refine ⟨rfl, rfl, ?_, rfl⟩
  decide

/-- Claim C2, amended: an input that contains a training keyword, triggers
no instant-cache match, and contains no prediction keyword (the
prediction block precedes the training block in the scan order) is
classified as `training`. -/
theorem c2_training_keyword_intent (msg : String)
    (_hcache : get_instant_response msg = none)
    (ht : pyIn "train" (pyLower msg) = true ∨ pyIn "training" (pyLower msg) = true ∨
      pyIn "learn" (pyLower msg) = true ∨ pyIn "model" (pyLower msg) = true ∨
      pyIn "optimize" (pyLower msg) = true)
    (h1 : pyIn "predict" (pyLower msg) = false)
    (h2 : pyIn "forecast" (pyLower msg) = false)
    (h3 : pyIn "prediction" (pyLower msg) = false)
    (h4 : pyIn "future" (pyLower msg) = false)
    (h5 : pyIn "tomorrow" (pyLower msg) = false)
    (h6 : pyIn "next" (pyLower msg) = false) :
    (detect_ml_intent msg).1 = "training" := by
  unfold detect_ml_intent ml_keywords
  cases k1 : pyIn "train" (pyLower msg) <;>
    cases k2 : pyIn "training" (pyLower msg) <;>
    cases k3 : pyIn "learn" (pyLower msg) <;>
    cases k4 : pyIn "model" (pyLower msg) <;>
    cases k5 : pyIn "optimize" (pyLower msg) <;>
    simp_all [List.find?]

/-- Witness for C2 (amended) at the concrete input `"learn"`. -/
theorem c2_training_keyword_intent_witness :
    get_instant_response "learn" = none ∧
    pyIn "learn" (pyLower "learn") = true ∧
    pyIn "predict" (pyLower "learn") = false ∧
    pyIn "forecast" (pyLower "learn") = false ∧
    pyIn "prediction" (pyLower "learn") = false ∧
    pyIn "future" (pyLower "learn") = false ∧
    pyIn "tomorrow" (pyLower "learn") = false ∧
    pyIn "next" (pyLower "learn") = false ∧
    (detect_ml_intent "learn").1 = "training" :=
  ⟨rfl, rfl, rfl, rfl, rfl, rfl, rfl, rfl,
    c2_training_keyword_intent "learn" rfl (Or.inr (Or.inr (Or.inl rfl)))
      rfl rfl rfl rfl rfl rfl⟩

/-- Claim C3: the conversation history built by any sequence of
`add_message` calls from the empty session never exceeds
`MAX_CONVERSATION_LENGTH`; appending capacity+1 messages leaves exactly
capacity messages, namely the capacity most recent ones in insertion
order (the oldest entry is dropped). -/
theorem c3_conversation_capacity (msgs : List Message) :
    (append_messages [] msgs).length ≤ MAX_CONVERSATION_LENGTH ∧
    (msgs.length = MAX_CONVERSATION_LENGTH + 1 →
      (append_messages [] msgs).length = MAX_CONVERSATION_LENGTH ∧
      append_messages [] msgs = msgs.drop 1) := by
  refine ⟨append_messages_le msgs [] (by simp), ?_⟩
  intro hlen
  have hne : msgs ≠ [] := by
    intro h
    rw [h] at hlen
    simp [MAX_CONVERSATION_LENGTH] at hlen
  have hsplit := List.dropLast_append_getLast hne
  have hdl : msgs.dropLast.length = MAX_CONVERSATION_LENGTH := by
    have := List.length_dropLast msgs
    omega
  have hfold : append_messages [] msgs =
      add_message msgs.dropLast (msgs.getLast hne).role (msgs.getLast hne).content := by
    conv_lhs => rw [← hsplit]
    unfold append_messages
    rw [List.foldl_append]
    have hin : List.foldl (fun h m => add_message h m.role m.content) [] msgs.dropLast
        = msgs.dropLast := by
      have := append_messages_no_overflow msgs.dropLast []
        (by simp [hdl])
      simpa [append_messages] using this
    rw [hin]
    rfl
  have hadd : add_message msgs.dropLast (msgs.getLast hne).role (msgs.getLast hne).content
      = msgs.drop 1 := by
    simp only [add_message]
    have hmk : Message.mk (msgs.getLast hne).role (msgs.getLast hne).content
        = msgs.getLast hne := rfl
    rw [hmk, hsplit]
    rw [if_pos (by omega)]
    congr 1
    omega
  rw [hfold, hadd]
  refine ⟨?_, rfl⟩
  simp [hlen]

/-- Witness for C3 at a concrete list of capacity+1 messages. -/
theorem c3_conversation_capacity_witness :
    (List.replicate 51 (Message.mk "user" "x")).length = MAX_CONVERSATION_LENGTH + 1 ∧
    (append_messages [] (List.replicate 51 (Message.mk "user" "x"))).length
      = MAX_CONVERSATION_LENGTH ∧
    append_messages [] (List.replicate 51 (Message.mk "user" "x"))
      = (List.replicate 51 (Message.mk "user" "x")).drop 1 :=
  ⟨by simp [MAX_CONVERSATION_LENGTH],
    (c3_conversation_capacity (List.replicate 51 (Message.mk "user" "x"))).2
      (by simp [MAX_CONVERSATION_LENGTH])⟩

theorem handle_prediction_snd (env : Env) (h : List Message) :
    (handle_prediction_request env h).2 =
      add_message h "assistant" (handle_prediction_request env h).1 := by
  unfold handle_prediction_request
  cases env.predict_result <;> rfl

theorem handle_training_snd (env : Env) (h : List Message) :
    (handle_training_request env h).2 =
      add_message h "assistant" (handle_training_request env h).1 := by
  unfold handle_training_request
  cases env.train_result <;> rfl

theorem handle_analysis_snd (env : Env) (h : List Message) :
    (handle_analysis_request env h).2 =
      add_message h "assistant" (handle_analysis_request env h).1 := by
  unfold handle_analysis_request
  cases env.analyze_result <;> rfl

theorem process_message_snd (env : Env) (hist : List Message) (msg : String) :
    (process_message env hist msg).2.1 =
      add_message (add_message hist "user" msg) "assistant"
        (process_message env hist msg).1 := by
  unfold process_message
  cases hc : get_instant_response msg with
  | some r => simp
  | none =>
    simp only []
    split_ifs <;>
      first
        | rfl
        | exact handle_prediction_snd env _
        | exact handle_training_snd env _
        | exact handle_analysis_snd env _

theorem process_message_last (env : Env) (hist : List Message) (msg : String) :
    (process_message env hist msg).2.1.getLast? =
      some (Message.mk "assistant" (process_message env hist msg).1) := by
  rw [process_message_snd]
  exact add_message_getLast _ _ _

/-- Claim C9: every `process_message` call, on every branch, appends
exactly two messages — the user message first, then the returned reply as
an assistant message — so the returned reply is always the content of the
last history entry. -/
theorem c9_process_appends_user_then_reply (env : Env) (hist : List Message) (msg : String) :
    (process_message env hist msg).2.1 =
      add_message (add_message hist "user" msg) "assistant"
        (process_message env hist msg).1 ∧
    (process_message env hist msg).2.1.getLast? =
      some (Message.mk "assistant" (process_message env hist msg).1) :=
  ⟨process_message_snd env hist msg, process_message_last env hist msg⟩

/-- Claim C4: when the collaborator's prediction raises, the reply to
`"predict next week"` is the formatted error message carrying the error
marker, the exception is not propagated, and that same text is the last
entry of the resulting history. -/
theorem c4_prediction_failure_recovered (env : Env) (hist : List Message) (e : String)
    (herr : env.predict_result = Except.error e) :
    (process_message env hist "predict next week").1 =
      "❌ Error during prediction: " ++ e ∧
    pyIn "❌" (process_message env hist "predict next week").1 = true ∧
    (process_message env hist "predict next week").2.1.getLast? =
      some (Message.mk "assistant" ((process_message env hist "predict next week").1)) := by
  have hsel : process_message env hist "predict next week" =
      ((handle_prediction_request env (add_message hist "user" "predict next week")).1,
        (handle_prediction_request env (add_message hist "user" "predict next week")).2,
        true) := rfl
  have hfst : (process_message env hist "predict next week").1 =
      "❌ Error during prediction: " ++ e := by
    rw [hsel]
    unfold handle_prediction_request
    rw [herr]
  refine ⟨hfst, ?_, process_message_last env hist "predict next week"⟩
  rw [hfst]
  exact pyIn_append_left "❌" "❌ Error during prediction: " e (by decide)

/-- Witness for C4 at a concrete failing environment. -/
theorem c4_prediction_failure_recovered_witness :
    envFail.predict_result = Except.error "boom" ∧
    (process_message envFail [] "predict next week").1 =
      "❌ Error during prediction: " ++ "boom" ∧
    pyIn "❌" (process_message envFail [] "predict next week").1 = true ∧
    (process_message envFail [] "predict next week").2.1.getLast? =
      some (Message.mk "assistant" ((process_message envFail [] "predict next week").1)) :=
  ⟨rfl, c4_prediction_failure_recovered envFail [] "boom" rfl⟩

/-- Claim C6: the input `"hello"` yields one of the code's fixed greeting
template strings (here the instant-cache hello greeting); and with the
collaborator returning score 0.918 and elapsed time 12.4 s, the reply to
`"Train a new model"` contains the substrings `91.8%` and `12.4`. -/
theorem c6_hello_and_training_scenario (env env2 : Env) (hist hist2 : List Message)
    (r : TrainingResult) (hok : env2.train_result = Except.ok r)
    (hscore : r.score = 459/500) (htime : r.training_time = 62/5) :
    (process_message env hist "hello").1 ∈ fixedGreetingReplies ∧
    pyIn "91.8%" (process_message env2 hist2 "Train a new model").1 = true ∧
    pyIn "12.4" (process_message env2 hist2 "Train a new model").1 = true := by
  have hhello : (process_message env hist "hello").1 =
      "Hello! 👋 I\x27m your AI-powered predictive assistant! Ready for instant predictions?" :=
    rfl
  have hsel : process_message env2 hist2 "Train a new model" =
      ((handle_training_request env2 (add_message hist2 "user" "Train a new model")).1,
        (handle_training_request env2 (add_message hist2 "user" "Train a new model")).2,
        true) := rfl
  have hfst : (process_message env2 hist2 "Train a new model").1 =
      training_response
        (pick (sim_list "training") env2.training_intro_choice) r := by
    rw [hsel]
    unfold handle_training_request
    rw [hok]
  have hpct : fmtPct 1 ((459 : ℚ)/500) = "91.8%" := by
    unfold fmtPct fmtFixed
    rw [show round ((459/500 : ℚ) * 100 * 10 ^ 1) = 918 by norm_num [round_eq]]
    decide
  have hdur : fmtFixed 1 ((62 : ℚ)/5) = "12.4" := by
    unfold fmtFixed
    rw [show round ((62/5 : ℚ) * 10 ^ 1) = 124 by norm_num [round_eq]]
    decide
  refine ⟨by rw [hhello]; decide, ?_, ?_⟩
  · rw [hfst]
    unfold training_response
    rw [hscore, hpct]
    apply pyIn_append_right
    apply pyIn_append_right
    apply pyIn_append_right
    apply pyIn_append_right
    exact pyIn_self_append _ _
  · rw [hfst]
    unfold training_response
    rw [htime, hdur]
    apply pyIn_append_right
    apply pyIn_append_right
    apply pyIn_append_right
    apply pyIn_append_right
    apply pyIn_append_right
    apply pyIn_append_right
    exact pyIn_self_append _ _

/-- Witness for C6 at the concrete environment `envTrainOk`. -/
theorem c6_hello_and_training_scenario_witness :
    (envTrainOk.train_result = Except.ok trainRec918 ∧
      trainRec918.score = 459/500 ∧ trainRec918.training_time = 62/5) ∧
    ((process_message envFail [] "hello").1 ∈ fixedGreetingReplies ∧
      pyIn "91.8%" (process_message envTrainOk [] "Train a new model").1 = true ∧
      pyIn "12.4" (process_message envTrainOk [] "Train a new model").1 = true) :=
  ⟨⟨rfl, rfl, rfl⟩,
    c6_hello_and_training_scenario envFail envTrainOk [] [] trainRec918 rfl rfl rfl⟩

/-- Claim C10: `predict_next_values` is not read-only — a successful call
on an untrained engine first runs `train_model`, and after every
successful call the resulting state is trained with populated
`model_data`. -/
theorem c10_predict_marks_trained (n_days : Nat) (pd : PredictDraws) (td : TrainDraws)
    (st st2 : MLState) (r : MLPredRecord)
    (h : predict_next_values n_days pd td st = some (st2, r)) :
    st2.is_trained = true ∧ st2.model_data ≠ none ∧
    (st.is_trained = false →
      (train_model td st).map (fun p => p.1) = some st2) := by
  unfold predict_next_values at h
  by_cases htr : st.is_trained
  · rw [if_pos htr] at h
    simp only [Option.map_some'] at h
    cases hmd : st.model_data with
    | none => rw [hmd] at h; simp at h
    | some md =>
      rw [hmd] at h
      cases hlast : st.historical_values.getLast? with
      | none => rw [hlast] at h; simp at h
      | some lv =>
        rw [hlast] at h
        simp only [] at h
        by_cases hn : n_days = 0
        · rw [if_pos hn] at h; simp at h
        · rw [if_neg hn] at h
          simp only [Option.some.injEq, Prod.mk.injEq] at h
          obtain ⟨hst, _⟩ := h
          subst hst
          exact ⟨htr, by simp [hmd], fun hf => absurd htr (by simp [hf])⟩
  · rw [if_neg htr] at h
    unfold train_model at h
    by_cases hemp : st.historical_values.isEmpty
    · rw [if_pos hemp] at h; simp at h
    · rw [if_neg hemp] at h
      simp only [Option.map_some'] at h
      cases hlast : st.historical_values.getLast? with
      | none => rw [hlast] at h; simp at h
      | some lv =>
        rw [hlast] at h
        simp only [] at h
        by_cases hn : n_days = 0
        · rw [if_pos hn] at h; simp at h
        · rw [if_neg hn] at h
          simp only [Option.some.injEq, Prod.mk.injEq] at h
          obtain ⟨hst, _⟩ := h
          refine ⟨?_, ?_, fun _ => ?_⟩
          · rw [← hst]
          · rw [← hst]; simp
          · unfold train_model
            rw [if_neg hemp]
            simp only [Option.map_some', Option.some.injEq]
            exact hst

/-- Witness for C10 at a concrete untrained engine state. -/
theorem c10_predict_marks_trained_witness :
    predict_next_values 1 pdraws tdraws mlStart = some (mlTrained, predRec0) ∧
    (mlTrained.is_trained = true ∧ mlTrained.model_data ≠ none ∧
      (mlStart.is_trained = false →
        (train_model tdraws mlStart).map (fun p => p.1) = some mlTrained)) :=
  ⟨by simp [predict_next_values, train_model, mlStart, tdraws, pdraws, mlTrained, predRec0,
      List.range, List.range.loop],
    c10_predict_marks_trained 1 pdraws tdraws mlStart mlTrained predRec0
      (by simp [predict_next_values, train_model, mlStart, tdraws, pdraws, mlTrained,
        predRec0, List.range, List.range.loop])⟩
